import Mathlib

/-!
Shallow embedding of the YieldCurveMonitoring repository
(`src/scripts.py` and `src/get_all_yc_data.py`).

Modelling choices:
- Rates are rationals (`ℚ`): the Python code does plain CSV-value arithmetic
  (`/ 100`, `* 10000`, subtraction, division), modelled exactly.
- The network is a parameter `fetch : Nat → Option RawTable`: `fetch year`
  is the parsed result of the yearly CSV request, `none` meaning the fetch
  or parse raised.  A `pandas` DataFrame indexed by date becomes an
  association list from dates to rows; a row is an association list from
  column keys to values.
- Python `ValueError`s raised by the loader/comparator carry distinguishing
  message text; they are modelled as the tagged type `CurveError`.
- `get_yield_curve_for_date` threads its cache dictionary explicitly and
  additionally reports how many network fetches the call performed, so that
  the cache side-effect contract is statable.  Plotting (`visual=...`) and
  table printing are pure output side effects with no influence on the data
  flow and are not modelled.
- `compare_yield_curves` returns `Except CurveError CompareOutcome`: the
  `Except` layer represents what the Python function could raise to its
  caller, while `CompareOutcome` records what it prints.
-/

namespace YieldCurve

/-- Calendar date, compared lexicographically like Python `datetime`. -/
structure Date where
  year : Nat
  month : Nat
  day : Nat
deriving DecidableEq, Repr

/-- Python `datetime` comparison `a < b` (lexicographic on year, month, day). -/
def Date.ltb (a b : Date) : Bool :=
  if a.year = b.year then
    (if a.month = b.month then decide (a.day < b.day) else decide (a.month < b.month))
  else decide (a.year < b.year)

/-- Column key after `rename(columns=col_mapping)`: a numeric tenor-in-years
for columns that the mapping knows, the untouched raw label otherwise. -/
inductive Tenor where
  | num (q : ℚ)
  | raw (s : String)
deriving DecidableEq, Repr

/-- The global `col_mapping` of `scripts.py`: raw column label to numeric
tenor in years (`round(1/12, 4) = 0.0833`, etc.). -/
def col_mapping : List (String × ℚ) :=
  [("1 Mo", 0.0833), ("1.5 Month", 0.125), ("2 Mo", 0.1667), ("3 Mo", 0.25),
   ("4 Mo", 0.3333), ("6 Mo", 0.5),
   ("1 Yr", 1), ("2 Yr", 2), ("3 Yr", 3), ("5 Yr", 5), ("7 Yr", 7),
   ("10 Yr", 10), ("20 Yr", 20), ("30 Yr", 30)]

/-- Effect of `pandas.rename(columns=col_mapping)` on one column label:
mapped labels become their numeric tenor, unmapped labels are kept. -/
def renameCol (s : String) : Tenor :=
  match col_mapping.find? (fun p => decide (p.1 = s)) with
  | some p => Tenor.num p.2
  | none => Tenor.raw s

/-- One parsed CSV row: raw column label to raw percentage value. -/
abbrev RawRow := List (String × ℚ)

/-- A parsed CSV table: date-indexed rows of raw percentage values. -/
abbrev RawTable := List (Date × RawRow)

/-- A single date's yield curve: tenor key to decimal yield. -/
abbrev DailyCurve := List (Tenor × ℚ)

/-- A normalized yearly table: date-indexed rows of decimal yields. -/
abbrev YearTable := List (Date × DailyCurve)

/-- The `yearly_yield_curves_cache` dictionary: year to yearly table. -/
abbrev Cache := List (Nat × YearTable)

/-- The network: year to parsed yearly CSV, `none` when fetch/parse fails. -/
abbrev Fetch := Nat → Option RawTable

/-- Normalization applied to every ingested row: rename columns through
`col_mapping` and divide each raw percentage by 100. -/
def processRow (cols : RawRow) : DailyCurve :=
  cols.map (fun p => (renameCol p.1, p.2 / 100))

/-- `df.rename(columns=col_mapping)` followed by `df / 100`, applied to a
whole date-indexed table; used by both the yearly loader and the bulk
exporter. -/
def rescaleTable (raw : RawTable) : YearTable :=
  raw.map (fun r => (r.1, processRow r.2))

/-- The fetch-and-normalize step of `get_yield_curve_for_date`'s cache-miss
branch: `pd.read_csv(url)`, rename, divide by 100; `none` when the fetch or
parse raised. -/
def loadYear (fetch : Fetch) (year : Nat) : Option YearTable :=
  (fetch year).map rescaleTable

/-- The in-memory frame built by `get_all_yc_data.py` before it is written
out: read the archive CSV, rename columns, divide by 100. -/
def get_all_yc_data (archive : RawTable) : YearTable :=
  rescaleTable archive

/-- Dictionary lookup `cache[year]` / membership `year in cache`. -/
def lookupYear (cache : Cache) (year : Nat) : Option YearTable :=
  (cache.find? (fun p => decide (p.1 = year))).map Prod.snd

/-- Dictionary insert `cache[year] = tbl`. -/
def insertYear (cache : Cache) (year : Nat) (tbl : YearTable) : Cache :=
  (year, tbl) :: cache

/-- Row lookup `df_yearly.loc[date_str]`; `none` models the `KeyError`. -/
def lookupRow (tbl : YearTable) (d : Date) : Option DailyCurve :=
  (tbl.find? (fun p => decide (p.1 = d))).map Prod.snd

/-- Series lookup of one tenor key in a daily curve. -/
def lookupTenor (curve : DailyCurve) (t : Tenor) : Option ℚ :=
  (curve.find? (fun p => decide (p.1 = t))).map Prod.snd

/-- The `ValueError`s raised in `scripts.py`, distinguished here by tag the
way the spec's taxonomy distinguishes them by message text. -/
inductive CurveError where
  | unsupportedYear (year : Nat)
  | yearLoadFailed (year : Nat)
  | noDataForDate (date : Date)
  | noCommonTenors (d1 d2 : Date)
deriving DecidableEq, Repr

deriving instance DecidableEq for Except

/-- Result of one `get_yield_curve_for_date` call: the returned curve or
raised error, the cache dictionary afterwards, and how many network fetches
the call performed (0 or 1). -/
structure LookupResult where
  result : Except CurveError DailyCurve
  cache : Cache
  fetches : Nat
deriving DecidableEq, Repr

/-- The final block of `get_yield_curve_for_date`: retrieve the specific
date's row from the resolved yearly table, turning the `KeyError` of a
missing row into the "no data for date" error. -/
def rowResult (tbl : YearTable) (date : Date) : Except CurveError DailyCurve :=
  match lookupRow tbl date with
  | some row => .ok row
  | none => .error (.noDataForDate date)

/-- `get_yield_curve_for_date(date, cache)` of `scripts.py`: reject years
before 1990; on a cache miss fetch and normalize the year (a failure raises
and leaves the cache untouched, a success stores the table); finally look
up the exact date row, raising when it is absent. -/
def get_yield_curve_for_date (fetch : Fetch) (date : Date) (cache : Cache) : LookupResult :=
  if date.year < 1990 then
    ⟨.error (.unsupportedYear date.year), cache, 0⟩
  else
    match lookupYear cache date.year with
    | some tbl => ⟨rowResult tbl date, cache, 0⟩
    | none =>
      match loadYear fetch date.year with
      | none => ⟨.error (.yearLoadFailed date.year), cache, 1⟩
      | some tbl => ⟨rowResult tbl date, insertYear cache date.year tbl, 1⟩

/-- The `if date1 < date2: date1, date2 = date2, date1` swap at the top of
`compare_yield_curves`: afterwards the first component is the later date. -/
def normalizePair (d1 d2 : Date) : Date × Date :=
  if Date.ltb d1 d2 then (d2, d1) else (d1, d2)

/-- One row of the comparison table: `yc1` is the later date's yield, `yc2`
the earlier date's, and the differences are computed exactly as in
`compare_yield_curves`: `absolute_diff = (yc2 - yc1) * 10000` and
`relative_diff = (yc2 - yc1) / yc1.replace(0, NA) * 100` (so `relDiff` is
`none`, modelling `pd.NA`, exactly when `yc1` is zero). -/
structure CompRow where
  tenor : Tenor
  yc1 : ℚ
  yc2 : ℚ
  absDiff : ℚ
  relDiff : Option ℚ
deriving DecidableEq, Repr

/-- Builds one comparison row from the later date's yield `v1` and the
earlier date's yield `v2` at a common tenor. -/
def mkRow (t : Tenor) (v1 v2 : ℚ) : CompRow :=
  { tenor := t, yc1 := v1, yc2 := v2,
    absDiff := (v2 - v1) * 10000,
    relDiff := if v1 = 0 then none else some ((v2 - v1) / v1 * 100) }

/-- `yc1.index.intersection(yc2.index)` together with the aligned values:
the common tenors in `yc1` order, each with the later date's value and the
earlier date's value. -/
def commonTenorTriples (yc1 yc2 : DailyCurve) : List (Tenor × ℚ × ℚ) :=
  yc1.filterMap (fun p =>
    match lookupTenor yc2 p.1 with
    | some v2 => some (p.1, p.2, v2)
    | none => none)

/-- The comparison content `compare_yield_curves` builds and prints:
`date1` is the later date (listed first in the table), `date2` the earlier,
and one row per common tenor. -/
structure Comparison where
  date1 : Date
  date2 : Date
  rows : List CompRow
deriving DecidableEq, Repr

/-- The body of `compare_yield_curves`'s `try` block: swap so the first
date is the later one, load both curves (threading the cache), intersect
the tenor keys, raise when the intersection is empty, and otherwise build
the comparison rows. -/
def compareBody (fetch : Fetch) (date1 date2 : Date) (cache : Cache) :
    Except CurveError Comparison × Cache :=
  let p := normalizePair date1 date2
  let r1 := get_yield_curve_for_date fetch p.1 cache
  match r1.result with
  | .error e => (.error e, r1.cache)
  | .ok yc1 =>
    let r2 := get_yield_curve_for_date fetch p.2 r1.cache
    match r2.result with
    | .error e => (.error e, r2.cache)
    | .ok yc2 =>
      let common := commonTenorTriples yc1 yc2
      if common.isEmpty then
        (.error (.noCommonTenors p.1 p.2), r2.cache)
      else
        (.ok { date1 := p.1, date2 := p.2,
               rows := common.map (fun c => mkRow c.1 c.2.1 c.2.2) }, r2.cache)

/-- What `compare_yield_curves` leaves on the console: either the printed
comparison table, or the error message printed by one of its two `except`
handlers. -/
inductive CompareOutcome where
  | printedTable (c : Comparison)
  | printedError (e : CurveError)
deriving DecidableEq, Repr

/-- `compare_yield_curves(date1, date2)` of `scripts.py`.  The `Except`
layer of the return type is the channel through which an exception would
reach the caller; the function's `except ValueError` / `except Exception`
handlers catch everything its body raises and print a message instead, so
by construction the outer value is always `ok`. -/
def compare_yield_curves (fetch : Fetch) (date1 date2 : Date) (cache : Cache) :
    Except CurveError CompareOutcome × Cache :=
  match compareBody fetch date1 date2 cache with
  | (.ok c, cache') => (.ok (.printedTable c), cache')
  | (.error e, cache') => (.ok (.printedError e), cache')

/-- A small concrete network used to instantiate the theorems below: one
trading day of data for each of the years 2019 and 2020 (raw percentages,
as in the source CSV), every other year failing to fetch. -/
def demoFetch : Fetch := fun y =>
  if y = 2019 then
    some [(⟨2019, 1, 2⟩, [("1 Yr", 5.0), ("2 Yr", 5.0), ("3 Yr", 0.0)])]
  else if y = 2020 then
    some [(⟨2020, 1, 2⟩, [("1 Yr", 5.2), ("2 Yr", 0.0), ("3 Yr", 5.0)])]
  else none

/-- The normalized daily curve for 2019-01-02 under `demoFetch`. -/
def demoCurve2019 : DailyCurve :=
  processRow [("1 Yr", 5.0), ("2 Yr", 5.0), ("3 Yr", 0.0)]

/-- The normalized daily curve for 2020-01-02 under `demoFetch`. -/
def demoCurve2020 : DailyCurve :=
  processRow [("1 Yr", 5.2), ("2 Yr", 0.0), ("3 Yr", 5.0)]

/-- The normalized yearly table for 2019 under `demoFetch`. -/
def demoTable2019 : YearTable := [(⟨2019, 1, 2⟩, demoCurve2019)]

/-- The normalized yearly table for 2020 under `demoFetch`. -/
def demoTable2020 : YearTable := [(⟨2020, 1, 2⟩, demoCurve2020)]

/-! Basic lemmas about the date order and the cache dictionary. -/

theorem Date.ltb_iff (a b : Date) : Date.ltb a b = true ↔
    (a.year < b.year ∨ (a.year = b.year ∧
      (a.month < b.month ∨ (a.month = b.month ∧ a.day < b.day)))) := by
  unfold Date.ltb
  by_cases h1 : a.year = b.year
  · by_cases h2 : a.month = b.month
    · simp [h1, h2]
    · simp [h1, h2]
  · simp [h1]

theorem Date.ltb_asymm {a b : Date} (h : Date.ltb a b = true) : Date.ltb b a = false := by
  rw [Date.ltb_iff] at h
  rw [Bool.eq_false_iff, ne_eq, Date.ltb_iff]
  omega

theorem Date.eq_of_not_ltb {a b : Date} (h1 : Date.ltb a b = false)
    (h2 : Date.ltb b a = false) : a = b := by
  rw [Bool.eq_false_iff, ne_eq, Date.ltb_iff] at h1 h2
  cases a with
  | mk y1 m1 dd1 =>
    cases b with
    | mk y2 m2 dd2 =>
      simp only at h1 h2
      have : y1 = y2 ∧ m1 = m2 ∧ dd1 = dd2 := by omega
      simp [this.1, this.2.1, this.2.2]

theorem normalizePair_comm (d1 d2 : Date) : normalizePair d1 d2 = normalizePair d2 d1 := by
  unfold normalizePair
  by_cases h : Date.ltb d1 d2 = true
  · simp [h, Date.ltb_asymm h]
  · have h' : Date.ltb d1 d2 = false := by simpa using h
    by_cases h2 : Date.ltb d2 d1 = true
    · simp [h', h2]
    · have h2' : Date.ltb d2 d1 = false := by simpa using h2
      have he : d1 = d2 := Date.eq_of_not_ltb h' h2'
      subst he
      simp

theorem normalizePair_fst_not_ltb (d1 d2 : Date) :
    Date.ltb (normalizePair d1 d2).1 (normalizePair d1 d2).2 = false := by
  unfold normalizePair
  by_cases h : Date.ltb d1 d2 = true
  · simp [h, Date.ltb_asymm h]
  · have h' : Date.ltb d1 d2 = false := by simpa using h
    simp [h']

theorem lookupYear_insert_self (cache : Cache) (year : Nat) (tbl : YearTable) :
    lookupYear (insertYear cache year tbl) year = some tbl := by
  simp [lookupYear, insertYear, List.find?]

/-! Branch lemmas for `get_yield_curve_for_date`: one per control path. -/

theorem get_branch_unsupported (fetch : Fetch) (d : Date) (cache : Cache)
    (h : d.year < 1990) :
    get_yield_curve_for_date fetch d cache = ⟨.error (.unsupportedYear d.year), cache, 0⟩ := by
  simp [get_yield_curve_for_date, h]

theorem get_branch_hit (fetch : Fetch) (d : Date) (cache : Cache) (tbl : YearTable)
    (hy : ¬ d.year < 1990) (hc : lookupYear cache d.year = some tbl) :
    get_yield_curve_for_date fetch d cache = ⟨rowResult tbl d, cache, 0⟩ := by
  simp [get_yield_curve_for_date, hy, hc]

theorem get_branch_load_fail (fetch : Fetch) (d : Date) (cache : Cache)
    (hy : ¬ d.year < 1990) (hc : lookupYear cache d.year = none)
    (hl : loadYear fetch d.year = none) :
    get_yield_curve_for_date fetch d cache = ⟨.error (.yearLoadFailed d.year), cache, 1⟩ := by
  simp [get_yield_curve_for_date, hy, hc, hl]

theorem get_branch_load_ok (fetch : Fetch) (d : Date) (cache : Cache) (tbl : YearTable)
    (hy : ¬ d.year < 1990) (hc : lookupYear cache d.year = none)
    (hl : loadYear fetch d.year = some tbl) :
    get_yield_curve_for_date fetch d cache =
      ⟨rowResult tbl d, insertYear cache d.year tbl, 1⟩ := by
  simp [get_yield_curve_for_date, hy, hc, hl]

/-! Helper lemmas for `compareBody` and the outer `compare_yield_curves`. -/

theorem mem_commonTenorTriples {yc1 yc2 : DailyCurve} {t : Tenor} {v1 v2 : ℚ}
    (hm : (t, v1) ∈ yc1) (hl : lookupTenor yc2 t = some v2) :
    (t, v1, v2) ∈ commonTenorTriples yc1 yc2 := by
  unfold commonTenorTriples
  refine List.mem_filterMap.mpr ⟨(t, v1), hm, ?_⟩
  simp [hl]

theorem compareBody_ok (fetch : Fetch) (d1 d2 : Date) (cache : Cache)
    (yc1 yc2 : DailyCurve)
    (h1 : (get_yield_curve_for_date fetch (normalizePair d1 d2).1 cache).result = .ok yc1)
    (h2 : (get_yield_curve_for_date fetch (normalizePair d1 d2).2
            (get_yield_curve_for_date fetch (normalizePair d1 d2).1 cache).cache).result = .ok yc2)
    (hne : (commonTenorTriples yc1 yc2).isEmpty = false) :
    compareBody fetch d1 d2 cache =
      (.ok { date1 := (normalizePair d1 d2).1, date2 := (normalizePair d1 d2).2,
             rows := (commonTenorTriples yc1 yc2).map (fun c => mkRow c.1 c.2.1 c.2.2) },
       (get_yield_curve_for_date fetch (normalizePair d1 d2).2
         (get_yield_curve_for_date fetch (normalizePair d1 d2).1 cache).cache).cache) := by
  simp only [compareBody]
  rw [h1]
  simp only []
  rw [h2]
  simp [hne]

theorem compareBody_err_first (fetch : Fetch) (d1 d2 : Date) (cache : Cache) (e : CurveError)
    (h1 : (get_yield_curve_for_date fetch (normalizePair d1 d2).1 cache).result = .error e) :
    compareBody fetch d1 d2 cache =
      (.error e, (get_yield_curve_for_date fetch (normalizePair d1 d2).1 cache).cache) := by
  simp only [compareBody]
  rw [h1]

theorem compareBody_err_second (fetch : Fetch) (d1 d2 : Date) (cache : Cache)
    (yc1 : DailyCurve) (e : CurveError)
    (h1 : (get_yield_curve_for_date fetch (normalizePair d1 d2).1 cache).result = .ok yc1)
    (h2 : (get_yield_curve_for_date fetch (normalizePair d1 d2).2
            (get_yield_curve_for_date fetch (normalizePair d1 d2).1 cache).cache).result = .error e) :
    compareBody fetch d1 d2 cache =
      (.error e, (get_yield_curve_for_date fetch (normalizePair d1 d2).2
        (get_yield_curve_for_date fetch (normalizePair d1 d2).1 cache).cache).cache) := by
  simp only [compareBody]
  rw [h1]
  simp only []
  rw [h2]

theorem compare_of_body_ok (fetch : Fetch) (d1 d2 : Date) (cache : Cache)
    (c : Comparison) (cache' : Cache)
    (h : compareBody fetch d1 d2 cache = (.ok c, cache')) :
    compare_yield_curves fetch d1 d2 cache = (.ok (.printedTable c), cache') := by
  simp [compare_yield_curves, h]

theorem compare_of_body_err (fetch : Fetch) (d1 d2 : Date) (cache : Cache)
    (e : CurveError) (cache' : Cache)
    (h : compareBody fetch d1 d2 cache = (.error e, cache')) :
    compare_yield_curves fetch d1 d2 cache = (.ok (.printedError e), cache') := by
  simp [compare_yield_curves, h]

theorem rescaleTable_mem {raw : RawTable} {d : Date} {row : DailyCurve}
    (hd : (d, row) ∈ rescaleTable raw) {p : Tenor × ℚ} (hp : p ∈ row) :
    ∃ cols s rawv, (d, cols) ∈ raw ∧ (s, rawv) ∈ cols ∧ p = (renameCol s, rawv / 100) := by
  unfold rescaleTable at hd
  rcases List.mem_map.mp hd with ⟨⟨d0, cols⟩, hmem, heq⟩
  rw [Prod.mk.injEq] at heq
  obtain ⟨rfl, hrow⟩ := heq
  subst hrow
  unfold processRow at hp
  rcases List.mem_map.mp hp with ⟨⟨s, rawv⟩, hm2, heq2⟩
  exact ⟨cols, s, rawv, hmem, hm2, heq2.symm⟩

/-! The claims. -/

/-- C7: for every date with year < 1990 and every cache state,
`get_yield_curve_for_date` fails with the "unsupported year" error,
performing no network fetch, leaving the cache untouched and never reading
it (the result is the same for every cache). -/
theorem unsupported_year_rejected (fetch : Fetch) (d : Date) (cache : Cache)
    (h : d.year < 1990) :
    get_yield_curve_for_date fetch d cache =
      ⟨.error (.unsupportedYear d.year), cache, 0⟩ := by
  simp [get_yield_curve_for_date, h]

/-- Witness for C7: the lookup of 1980-01-04 on an empty cache. -/
theorem unsupported_year_rejected_witness :
    get_yield_curve_for_date demoFetch ⟨1980, 1, 4⟩ [] =
      ⟨.error (.unsupportedYear 1980), [], 0⟩ :=
  unsupported_year_rejected demoFetch ⟨1980, 1, 4⟩ [] (by decide)

/-- C4: when the fetch or parse of an uncached year >= 1990 fails, the call
fails with the "year load failed" error, the cache is left exactly as it
was (no partial insert), and every later call for a date in that year
reaches the fetch again (performs one network fetch). -/
theorem year_load_failure_leaves_cache_absent (fetch : Fetch) (d : Date) (cache : Cache)
    (hy : 1990 ≤ d.year) (hc : lookupYear cache d.year = none)
    (hl : loadYear fetch d.year = none) :
    get_yield_curve_for_date fetch d cache =
      ⟨.error (.yearLoadFailed d.year), cache, 1⟩ ∧
    ∀ (fetch2 : Fetch) (d2 : Date), d2.year = d.year →
      (get_yield_curve_for_date fetch2 d2 cache).fetches = 1 := by
  have hy' : ¬ d.year < 1990 := by omega
  refine ⟨get_branch_load_fail fetch d cache hy' hc hl, ?_⟩
  intro fetch2 d2 hyr
  have hy2 : ¬ d2.year < 1990 := by omega
  have hc2 : lookupYear cache d2.year = none := by rw [hyr]; exact hc
  rcases hl2 : loadYear fetch2 d2.year with _ | tbl
  · rw [get_branch_load_fail fetch2 d2 cache hy2 hc2 hl2]
  · rw [get_branch_load_ok fetch2 d2 cache tbl hy2 hc2 hl2]

/-- Witness for C4: year 2021 fails to fetch under `demoFetch`. -/
theorem year_load_failure_leaves_cache_absent_witness :
    get_yield_curve_for_date demoFetch ⟨2021, 1, 4⟩ [] =
      ⟨.error (.yearLoadFailed 2021), [], 1⟩ :=
  (year_load_failure_leaves_cache_absent demoFetch ⟨2021, 1, 4⟩ []
    (by decide) (by decide) (by decide)).1

/-- C5: after a call of `get_yield_curve_for_date` has returned a curve,
the owning year is in the resulting cache with some table `tbl`, the
returned curve is exactly `tbl`'s row for the date, and every subsequent
call for any date of the same year — under any network whatsoever —
performs zero fetches, leaves the cache untouched, and is answered from
that same cached table. -/
theorem cache_idempotence (fetch : Fetch) (d : Date) (cache : Cache) (curve : DailyCurve)
    (h : (get_yield_curve_for_date fetch d cache).result = .ok curve) :
    ∃ tbl, lookupYear (get_yield_curve_for_date fetch d cache).cache d.year = some tbl ∧
      rowResult tbl d = .ok curve ∧
      ∀ (fetch2 : Fetch) (d2 : Date), d2.year = d.year →
        get_yield_curve_for_date fetch2 d2 (get_yield_curve_for_date fetch d cache).cache =
          ⟨rowResult tbl d2, (get_yield_curve_for_date fetch d cache).cache, 0⟩ := by
  by_cases hy : d.year < 1990
  · rw [get_branch_unsupported fetch d cache hy] at h
    exact absurd h (by simp)
  · rcases hc : lookupYear cache d.year with _ | tbl
    · rcases hl : loadYear fetch d.year with _ | tbl
      · rw [get_branch_load_fail fetch d cache hy hc hl] at h
        exact absurd h (by simp)
      · have hg := get_branch_load_ok fetch d cache tbl hy hc hl
        rw [hg] at h ⊢
        refine ⟨tbl, lookupYear_insert_self cache d.year tbl, h, ?_⟩
        intro fetch2 d2 hyr
        have hy2 : ¬ d2.year < 1990 := by rw [hyr]; exact hy
        have hc2 : lookupYear (insertYear cache d.year tbl) d2.year = some tbl := by
          rw [hyr]; exact lookupYear_insert_self cache d.year tbl
        exact get_branch_hit fetch2 d2 _ tbl hy2 hc2
    · have hg := get_branch_hit fetch d cache tbl hy hc
      rw [hg] at h ⊢
      refine ⟨tbl, hc, h, ?_⟩
      intro fetch2 d2 hyr
      have hy2 : ¬ d2.year < 1990 := by rw [hyr]; exact hy
      have hc2 : lookupYear cache d2.year = some tbl := by rw [hyr]; exact hc
      exact get_branch_hit fetch2 d2 cache tbl hy2 hc2

/-- Witness for C5: a successful load of 2020-01-02 under `demoFetch`. -/
theorem cache_idempotence_witness :
    ∃ tbl, lookupYear (get_yield_curve_for_date demoFetch ⟨2020, 1, 2⟩ []).cache 2020 =
        some tbl ∧
      rowResult tbl ⟨2020, 1, 2⟩ = .ok demoCurve2020 ∧
      ∀ (fetch2 : Fetch) (d2 : Date), d2.year = 2020 →
        get_yield_curve_for_date fetch2 d2
            (get_yield_curve_for_date demoFetch ⟨2020, 1, 2⟩ []).cache =
          ⟨rowResult tbl d2, (get_yield_curve_for_date demoFetch ⟨2020, 1, 2⟩ []).cache, 0⟩ :=
  cache_idempotence demoFetch ⟨2020, 1, 2⟩ [] demoCurve2020 (by rfl)

/-- C6: when the date's year (>= 1990) resolves to a table — from the
cache or freshly loaded — and that table has no row for the exact date,
the call fails with the "no data for date" error; and whenever the call
returns a curve, that curve is the table's row for the exact requested
date, never a neighboring day's values. -/
theorem missing_date_row_fails (fetch : Fetch) (d : Date) (cache : Cache) (tbl : YearTable)
    (hy : 1990 ≤ d.year)
    (ht : lookupYear cache d.year = some tbl ∨
          (lookupYear cache d.year = none ∧ loadYear fetch d.year = some tbl)) :
    ((get_yield_curve_for_date fetch d cache).result = .error (.noDataForDate d) ↔
      lookupRow tbl d = none) ∧
    ∀ row, (get_yield_curve_for_date fetch d cache).result = .ok row →
      lookupRow tbl d = some row := by
  have hy' : ¬ d.year < 1990 := by omega
  have hres : (get_yield_curve_for_date fetch d cache).result = rowResult tbl d := by
    rcases ht with hc | ⟨hc, hl⟩
    · rw [get_branch_hit fetch d cache tbl hy' hc]
    · rw [get_branch_load_ok fetch d cache tbl hy' hc hl]
  rw [hres]
  constructor
  · unfold rowResult
    rcases hr : lookupRow tbl d with _ | row <;> simp [hr]
  · intro row h
    unfold rowResult at h
    rcases hr : lookupRow tbl d with _ | row2 <;> rw [hr] at h
    · exact absurd h (by simp)
    · simp only [Except.ok.injEq] at h
      rw [h]

/-- Witness for C6: 2020-01-04 has no row in the 2020 table of `demoFetch`
(only 2020-01-02 does), so the lookup fails with "no data for date". -/
theorem missing_date_row_fails_witness :
    (get_yield_curve_for_date demoFetch ⟨2020, 1, 4⟩ []).result =
      .error (.noDataForDate ⟨2020, 1, 4⟩) :=
  (missing_date_row_fails demoFetch ⟨2020, 1, 4⟩ [] demoTable2020 (by decide)
    (Or.inr ⟨by decide, by rfl⟩)).1.mpr (by decide)

/-- Counterexample for C1.  Earlier (baseline) 1-year yield 0.0500, later
(current) 0.0520: the claim predicts an absolute difference of
`(current - baseline) * 10000 = +20` bps, but the table the code prints
carries `-20` bps at the 1-year tenor — the code computes `(yc2 - yc1)`,
earlier minus later.  (Second and third rows: 0.05 → 0 gives +500 and
0 → 0.05 gives -500, likewise sign-flipped from the claim.) -/
theorem compare_absolute_diff_counterexample :
    (compare_yield_curves demoFetch ⟨2019, 1, 2⟩ ⟨2020, 1, 2⟩ []).1 =
      .ok (.printedTable
        { date1 := ⟨2020, 1, 2⟩, date2 := ⟨2019, 1, 2⟩,
          rows := [⟨Tenor.num 1, 13/250, 1/20, -20, some (-50/13)⟩,
                   ⟨Tenor.num 2, 0, 1/20, 500, none⟩,
                   ⟨Tenor.num 3, 1/20, 0, -500, some (-100)⟩] }) ∧
    ((13 : ℚ)/250 - 1/20) * 10000 = 20 ∧ ((-20 : ℚ)) ≠ 20 := by
  refine ⟨?_, by norm_num, by norm_num⟩
  have hb := compareBody_ok demoFetch ⟨2019, 1, 2⟩ ⟨2020, 1, 2⟩ []
    demoCurve2020 demoCurve2019 rfl rfl rfl
  have hc := compare_of_body_ok _ _ _ _ _ _ hb
  rw [hc]
  have ht : commonTenorTriples demoCurve2020 demoCurve2019 =
      [(Tenor.num 1, (5.2:ℚ)/100, (5.0:ℚ)/100), (Tenor.num 2, (0.0:ℚ)/100, (5.0:ℚ)/100),
       (Tenor.num 3, (5.0:ℚ)/100, (0.0:ℚ)/100)] := rfl
  have hnp : normalizePair (⟨2019, 1, 2⟩ : Date) ⟨2020, 1, 2⟩ =
      (⟨2020, 1, 2⟩, ⟨2019, 1, 2⟩) := rfl
  rw [ht, hnp]
  simp only [List.map]
  norm_num [mkRow, CompRow.mk.injEq]

/-- C1 (amended): whenever both curves load and a tenor is common to both,
the printed table contains a row for that tenor whose absolute difference
is `(earlier_yield - later_yield) * 10000` — the negative of the claimed
`(current - baseline) * 10000`.  Here `v1` is the later (current) date's
yield and `v2` the earlier (baseline) date's. -/
theorem compare_absolute_diff_is_earlier_minus_later
    (fetch : Fetch) (d1 d2 : Date) (cache : Cache)
    (yc1 yc2 : DailyCurve) (t : Tenor) (v1 v2 : ℚ)
    (h1 : (get_yield_curve_for_date fetch (normalizePair d1 d2).1 cache).result = .ok yc1)
    (h2 : (get_yield_curve_for_date fetch (normalizePair d1 d2).2
            (get_yield_curve_for_date fetch (normalizePair d1 d2).1 cache).cache).result = .ok yc2)
    (hm : (t, v1) ∈ yc1) (hl : lookupTenor yc2 t = some v2) :
    ∃ c r, (compare_yield_curves fetch d1 d2 cache).1 = .ok (.printedTable c) ∧
      r ∈ c.rows ∧ r.tenor = t ∧ r.yc1 = v1 ∧ r.yc2 = v2 ∧
      r.absDiff = (v2 - v1) * 10000 := by
  have hmem := mem_commonTenorTriples hm hl
  have hne : (commonTenorTriples yc1 yc2).isEmpty = false := by
    rw [List.isEmpty_eq_false]
    exact List.ne_nil_of_mem hmem
  have hb := compareBody_ok fetch d1 d2 cache yc1 yc2 h1 h2 hne
  have hc := compare_of_body_ok _ _ _ _ _ _ hb
  refine ⟨⟨(normalizePair d1 d2).1, (normalizePair d1 d2).2,
          (commonTenorTriples yc1 yc2).map (fun c => mkRow c.1 c.2.1 c.2.2)⟩,
         mkRow t v1 v2, ?_, ?_, rfl, rfl, rfl, rfl⟩
  · rw [hc]
  · exact List.mem_map.mpr ⟨(t, v1, v2), hmem, rfl⟩

/-- Witness for C1 (amended), at the 1-year tenor of the demo pair. -/
theorem compare_absolute_diff_is_earlier_minus_later_witness :
    ∃ c r, (compare_yield_curves demoFetch ⟨2019, 1, 2⟩ ⟨2020, 1, 2⟩ []).1 =
        .ok (.printedTable c) ∧
      r ∈ c.rows ∧ r.tenor = Tenor.num 1 ∧ r.yc1 = (5.2 : ℚ)/100 ∧ r.yc2 = (5.0 : ℚ)/100 ∧
      r.absDiff = ((5.0 : ℚ)/100 - (5.2 : ℚ)/100) * 10000 :=
  compare_absolute_diff_is_earlier_minus_later demoFetch ⟨2019, 1, 2⟩ ⟨2020, 1, 2⟩ []
    demoCurve2020 demoCurve2019 (Tenor.num 1) ((5.2 : ℚ)/100) ((5.0 : ℚ)/100)
    rfl rfl (by exact .head _) (by rfl)

/-- Counterexample for C2.  At the 1-year tenor (baseline 0.0500, current
0.0520) the claim predicts `(current - baseline) / baseline * 100 = +4`,
but the printed relative difference is `-50/13 ≈ -3.85` — the code divides
`(yc2 - yc1)` by the LATER date's yield.  At the 3-year tenor the baseline
yield is `0`, where the claim predicts not-a-number, yet the code prints
the finite value `-100`; conversely at the 2-year tenor (later yield `0`,
baseline nonzero) the code prints not-a-number. -/
theorem compare_relative_diff_counterexample :
    (compare_yield_curves demoFetch ⟨2020, 1, 2⟩ ⟨2019, 1, 2⟩ []).1 =
      .ok (.printedTable
        { date1 := ⟨2020, 1, 2⟩, date2 := ⟨2019, 1, 2⟩,
          rows := [⟨Tenor.num 1, 13/250, 1/20, -20, some (-50/13)⟩,
                   ⟨Tenor.num 2, 0, 1/20, 500, none⟩,
                   ⟨Tenor.num 3, 1/20, 0, -500, some (-100)⟩] }) ∧
    ((13 : ℚ)/250 - 1/20) / ((1 : ℚ)/20) * 100 = 4 ∧
    some ((-50 : ℚ)/13) ≠ some (4 : ℚ) ∧
    (some (-100 : ℚ) : Option ℚ) ≠ none := by
  refine ⟨?_, by norm_num, by norm_num, Option.some_ne_none _⟩
  have hb := compareBody_ok demoFetch ⟨2020, 1, 2⟩ ⟨2019, 1, 2⟩ []
    demoCurve2020 demoCurve2019 rfl rfl rfl
  have hc := compare_of_body_ok _ _ _ _ _ _ hb
  rw [hc]
  have ht : commonTenorTriples demoCurve2020 demoCurve2019 =
      [(Tenor.num 1, (5.2:ℚ)/100, (5.0:ℚ)/100), (Tenor.num 2, (0.0:ℚ)/100, (5.0:ℚ)/100),
       (Tenor.num 3, (5.0:ℚ)/100, (0.0:ℚ)/100)] := rfl
  have hnp : normalizePair (⟨2020, 1, 2⟩ : Date) ⟨2019, 1, 2⟩ =
      (⟨2020, 1, 2⟩, ⟨2019, 1, 2⟩) := rfl
  rw [ht, hnp]
  simp only [List.map]
  norm_num [mkRow, CompRow.mk.injEq]

/-- C2 (amended): whenever both curves load and a tenor is common to both,
the printed relative difference for that tenor is
`(earlier_yield - later_yield) / later_yield * 100`, and it is reported as
not-a-number exactly when the LATER (current) date's yield `v1` is zero —
not, as claimed, when the earlier (baseline) yield is zero. -/
theorem compare_relative_diff_uses_later_as_denominator
    (fetch : Fetch) (d1 d2 : Date) (cache : Cache)
    (yc1 yc2 : DailyCurve) (t : Tenor) (v1 v2 : ℚ)
    (h1 : (get_yield_curve_for_date fetch (normalizePair d1 d2).1 cache).result = .ok yc1)
    (h2 : (get_yield_curve_for_date fetch (normalizePair d1 d2).2
            (get_yield_curve_for_date fetch (normalizePair d1 d2).1 cache).cache).result = .ok yc2)
    (hm : (t, v1) ∈ yc1) (hl : lookupTenor yc2 t = some v2) :
    ∃ c r, (compare_yield_curves fetch d1 d2 cache).1 = .ok (.printedTable c) ∧
      r ∈ c.rows ∧ r.tenor = t ∧ r.yc1 = v1 ∧ r.yc2 = v2 ∧
      r.relDiff = (if v1 = 0 then none else some ((v2 - v1) / v1 * 100)) := by
  have hmem := mem_commonTenorTriples hm hl
  have hne : (commonTenorTriples yc1 yc2).isEmpty = false := by
    rw [List.isEmpty_eq_false]
    exact List.ne_nil_of_mem hmem
  have hb := compareBody_ok fetch d1 d2 cache yc1 yc2 h1 h2 hne
  have hc := compare_of_body_ok _ _ _ _ _ _ hb
  refine ⟨⟨(normalizePair d1 d2).1, (normalizePair d1 d2).2,
          (commonTenorTriples yc1 yc2).map (fun c => mkRow c.1 c.2.1 c.2.2)⟩,
         mkRow t v1 v2, ?_, ?_, rfl, rfl, rfl, rfl⟩
  · rw [hc]
  · exact List.mem_map.mpr ⟨(t, v1, v2), hmem, rfl⟩

/-- Witness for C2 (amended), at the 3-year tenor of the demo pair, whose
baseline yield is zero yet the later yield (the actual denominator) is
not. -/
theorem compare_relative_diff_uses_later_as_denominator_witness :
    ∃ c r, (compare_yield_curves demoFetch ⟨2019, 1, 2⟩ ⟨2020, 1, 2⟩ []).1 =
        .ok (.printedTable c) ∧
      r ∈ c.rows ∧ r.tenor = Tenor.num 3 ∧ r.yc1 = (5.0 : ℚ)/100 ∧ r.yc2 = (0.0 : ℚ)/100 ∧
      r.relDiff = (if (5.0 : ℚ)/100 = 0 then none
        else some (((0.0 : ℚ)/100 - (5.0 : ℚ)/100) / ((5.0 : ℚ)/100) * 100)) :=
  compare_relative_diff_uses_later_as_denominator demoFetch ⟨2019, 1, 2⟩ ⟨2020, 1, 2⟩ []
    demoCurve2020 demoCurve2019 (Tenor.num 3) ((5.0 : ℚ)/100) ((0.0 : ℚ)/100)
    rfl rfl (by exact .tail _ (.tail _ (.head _))) (by rfl)

/-- Counterexample for C3.  Comparing 1980-01-02 with 1985-03-04, the
loader raises the unsupported-year error inside `compare_yield_curves`,
but what reaches the caller is a normal return carrying a printed error
message — not the loader's exception: the claim that loader errors
propagate unchanged out of `compare_yield_curves` is false. -/
theorem loader_error_propagation_counterexample :
    (get_yield_curve_for_date demoFetch ⟨1985, 3, 4⟩ []).result =
      .error (.unsupportedYear 1985) ∧
    (compareBody demoFetch ⟨1980, 1, 2⟩ ⟨1985, 3, 4⟩ []).1 = .error (.unsupportedYear 1985) ∧
    (compare_yield_curves demoFetch ⟨1980, 1, 2⟩ ⟨1985, 3, 4⟩ []).1 =
      .ok (.printedError (.unsupportedYear 1985)) ∧
    (compare_yield_curves demoFetch ⟨1980, 1, 2⟩ ⟨1985, 3, 4⟩ []).1 ≠
      .error (.unsupportedYear 1985) := by
  refine ⟨by rfl, by rfl, by rfl, ?_⟩
  intro h
  have h2 : (compare_yield_curves demoFetch ⟨1980, 1, 2⟩ ⟨1985, 3, 4⟩ []).1 =
      .ok (.printedError (.unsupportedYear 1985)) := by rfl
  rw [h2] at h
  exact Except.noConfusion h

/-- C3 (amended): a loader error raised while loading either curve is
caught by `compare_yield_curves`'s exception handler: the function returns
normally, reporting that same error value only as a printed message;
nothing propagates to the caller. -/
theorem loader_errors_caught_not_propagated
    (fetch : Fetch) (d1 d2 : Date) (cache : Cache) (e : CurveError) :
    ((get_yield_curve_for_date fetch (normalizePair d1 d2).1 cache).result = .error e →
      compare_yield_curves fetch d1 d2 cache =
        (.ok (.printedError e),
         (get_yield_curve_for_date fetch (normalizePair d1 d2).1 cache).cache)) ∧
    (∀ yc1 : DailyCurve,
      (get_yield_curve_for_date fetch (normalizePair d1 d2).1 cache).result = .ok yc1 →
      (get_yield_curve_for_date fetch (normalizePair d1 d2).2
        (get_yield_curve_for_date fetch (normalizePair d1 d2).1 cache).cache).result = .error e →
      compare_yield_curves fetch d1 d2 cache =
        (.ok (.printedError e),
         (get_yield_curve_for_date fetch (normalizePair d1 d2).2
           (get_yield_curve_for_date fetch (normalizePair d1 d2).1 cache).cache).cache)) := by
  constructor
  · intro h1
    exact compare_of_body_err _ _ _ _ _ _ (compareBody_err_first fetch d1 d2 cache e h1)
  · intro yc1 h1 h2
    exact compare_of_body_err _ _ _ _ _ _ (compareBody_err_second fetch d1 d2 cache yc1 e h1 h2)

/-- Witness for C3 (amended): the unsupported-year error of 1985 is caught
and printed. -/
theorem loader_errors_caught_not_propagated_witness :
    compare_yield_curves demoFetch ⟨1980, 1, 2⟩ ⟨1985, 3, 4⟩ [] =
      (.ok (.printedError (.unsupportedYear 1985)), []) :=
  (loader_errors_caught_not_propagated demoFetch ⟨1980, 1, 2⟩ ⟨1985, 3, 4⟩ []
    (.unsupportedYear 1985)).1 (by rfl)

/-- C8: `compare_yield_curves` is order-independent — swapping the two
argument dates changes nothing in the result or the final cache — and the
internally normalized pair always lists the later (current) date first:
the first component is never earlier than the second. -/
theorem compare_order_independent (fetch : Fetch) (d1 d2 : Date) (cache : Cache) :
    compare_yield_curves fetch d1 d2 cache = compare_yield_curves fetch d2 d1 cache ∧
    Date.ltb (normalizePair d1 d2).1 (normalizePair d1 d2).2 = false := by
  refine ⟨?_, normalizePair_fst_not_ltb d1 d2⟩
  have hb : compareBody fetch d1 d2 cache = compareBody fetch d2 d1 cache := by
    simp only [compareBody]
    rw [normalizePair_comm d1 d2]
  unfold compare_yield_curves
  rw [hb]

/-- C10: for every pair of input dates and every network and cache state,
`compare_yield_curves` returns normally (never an `error`): when its body
succeeds the table is printed, and when its body raises any error — a
loader error or its own "no common tenors" error — that error is caught
and only a message is printed. -/
theorem compare_never_raises (fetch : Fetch) (d1 d2 : Date) (cache : Cache) :
    (∃ c, (compareBody fetch d1 d2 cache).1 = .ok c ∧
      compare_yield_curves fetch d1 d2 cache =
        (.ok (.printedTable c), (compareBody fetch d1 d2 cache).2)) ∨
    (∃ e, (compareBody fetch d1 d2 cache).1 = .error e ∧
      compare_yield_curves fetch d1 d2 cache =
        (.ok (.printedError e), (compareBody fetch d1 d2 cache).2)) := by
  rcases hb : compareBody fetch d1 d2 cache with ⟨r, cache'⟩
  rcases r with e | c
  · right
    exact ⟨e, rfl, compare_of_body_err fetch d1 d2 cache e cache' hb⟩
  · left
    exact ⟨c, rfl, compare_of_body_ok fetch d1 d2 cache c cache' hb⟩

/-- C9: every value stored by the yearly loader or the bulk exporter is a
raw CSV percentage divided by 100, and multiplying it back by 100 recovers
the raw percentage exactly — in particular within the 1e-6 tolerance. -/
theorem values_ingested_as_percentage_div_100 :
    (∀ (fetch : Fetch) (y : Nat) (tbl : YearTable), loadYear fetch y = some tbl →
      ∀ (d : Date) (row : DailyCurve), (d, row) ∈ tbl → ∀ p ∈ row,
        ∃ raw cols s rawv, fetch y = some raw ∧ (d, cols) ∈ raw ∧ (s, rawv) ∈ cols ∧
          p = (renameCol s, rawv / 100) ∧ |p.2 * 100 - rawv| ≤ 1 / 1000000) ∧
    (∀ (archive : RawTable) (d : Date) (row : DailyCurve),
      (d, row) ∈ get_all_yc_data archive → ∀ p ∈ row,
        ∃ cols s rawv, (d, cols) ∈ archive ∧ (s, rawv) ∈ cols ∧
          p = (renameCol s, rawv / 100) ∧ |p.2 * 100 - rawv| ≤ 1 / 1000000) := by
  have habs : ∀ rawv : ℚ, |(rawv / 100) * 100 - rawv| ≤ 1 / 1000000 := by
    intro rawv
    have h100 : (rawv / 100) * 100 = rawv := div_mul_cancel₀ rawv (by norm_num)
    rw [h100, sub_self, abs_zero]
    norm_num
  constructor
  · intro fetch y tbl hload d row hrow p hp
    obtain ⟨raw, hraw, htbl⟩ : ∃ raw, fetch y = some raw ∧ rescaleTable raw = tbl := by
      unfold loadYear at hload
      rcases hf : fetch y with _ | raw
      · rw [hf] at hload
        exact absurd hload (by simp)
      · rw [hf] at hload
        exact ⟨raw, rfl, Option.some.inj hload⟩
    subst htbl
    obtain ⟨cols, s, rawv, hcm, hs, hpe⟩ := rescaleTable_mem hrow hp
    refine ⟨raw, cols, s, rawv, hraw, hcm, hs, hpe, ?_⟩
    rw [hpe]
    exact habs rawv
  · intro archive d row hrow p hp
    unfold get_all_yc_data at hrow
    obtain ⟨cols, s, rawv, hcm, hs, hpe⟩ := rescaleTable_mem hrow hp
    refine ⟨cols, s, rawv, hcm, hs, hpe, ?_⟩
    rw [hpe]
    exact habs rawv

/-- Witness for C9: the 1-year value of the demo 2020 table round-trips. -/
theorem values_ingested_as_percentage_div_100_witness :
    ∃ raw cols s rawv, demoFetch 2020 = some raw ∧
      ((⟨2020, 1, 2⟩ : Date), cols) ∈ raw ∧ (s, rawv) ∈ cols ∧
      ((Tenor.num 1, (5.2 : ℚ)/100) : Tenor × ℚ) = (renameCol s, rawv / 100) ∧
      |((Tenor.num 1, (5.2 : ℚ)/100) : Tenor × ℚ).2 * 100 - rawv| ≤ 1 / 1000000 :=
  values_ingested_as_percentage_div_100.1 demoFetch 2020 demoTable2020 (by rfl)
    ⟨2020, 1, 2⟩ demoCurve2020 (by exact .head _) (Tenor.num 1, (5.2 : ℚ)/100)
    (by exact .head _)

end YieldCurve
